import Mathlib

/-!
Verification development for the Skiddle-ID/domainchecker repository.

The repository ships two variants of the worker:
* the libsql variant: `src/src/db.ts` + `src/src/index.ts` (the typed copy of
  `db.ts` in `src/unnamed/part_001` is logically identical), and
* the KV variant in `src/unnamed/part_000`.

Both are embedded below.  SQL tables are modelled as association lists,
machine integers and JavaScript timestamps as `Int`, and each fallible
store operation of `checkRateLimit` carries an explicit failure flag so
that the catch-all fail-open branch is expressible.
-/

namespace DomainChecker

/-- One row of the `rate_limits` table: `count` and `timestamp` for an ip. -/
structure RLEntry where
  count : Int
  timestamp : Int
deriving Repr, DecidableEq

/-- The `rate_limits` table, keyed by ip (primary key). -/
abbrev RLState := List (String × RLEntry)

/-- Return value of `checkRateLimit` in `src/src/db.ts`. -/
structure RLResult where
  allowed : Bool
  remaining : Int
  resetTime : Int
deriving Repr, DecidableEq

/-- Failure flags for the four store operations executed inside the
`try` block of `checkRateLimit` (DELETE, SELECT, INSERT, UPDATE).
A `true` flag means this `client.execute` call throws when reached. -/
structure StoreFail where
  purge : Bool
  select : Bool
  insert : Bool
  update : Bool
deriving Repr, DecidableEq

/-- The run in which every store operation succeeds. -/
def noFail : StoreFail := ⟨false, false, false, false⟩

/-- Milliseconds per minute, as in `windowMinutes * 60 * 1000`. -/
def msPerMinute : Int := 60 * 1000

/-- The `DELETE FROM rate_limits WHERE timestamp < windowStart` sweep:
keep exactly the rows whose timestamp is not below the threshold. -/
def purgeRL (st : RLState) (windowStart : Int) : RLState :=
  st.filter fun p => !decide (p.2.timestamp < windowStart)

/-- The `UPDATE rate_limits SET count = ?, timestamp = ? WHERE ip = ?`
statement: replace the entry of `ip`, leave every other row unchanged. -/
def updateRL (st : RLState) (ip : String) (e : RLEntry) : RLState :=
  st.map fun p => cond (ip == p.1) (p.1, e) p

/-- Shallow embedding of `checkRateLimit` from `src/src/db.ts`
(lines 210-288; `src/unnamed/part_001` lines 253-332 is the same logic
with parameterized SQL).  The state passed in and out is the
`rate_limits` table; the `StoreFail` flags decide which `client.execute`
call, if any, throws, in which case the `catch` block returns the
fail-open result and no further store operation runs. -/
def checkRateLimit (f : StoreFail) (st : RLState) (ip : String)
    (domainCount maxDomains windowMinutes now : Int) : RLResult × RLState :=
  let windowStart := now - windowMinutes * msPerMinute
  let failOpen : RLResult :=
    ⟨true, maxDomains - domainCount, now + windowMinutes * msPerMinute⟩
  if f.purge then (failOpen, st) else
  let st1 := purgeRL st windowStart
  if f.select then (failOpen, st1) else
  match st1.lookup ip with
  | none =>
    if domainCount > maxDomains then
      (⟨false, maxDomains, now + windowMinutes * msPerMinute⟩, st1)
    else if f.insert then (failOpen, st1)
    else
      (⟨true, maxDomains - domainCount, now + windowMinutes * msPerMinute⟩,
        (ip, ⟨domainCount, now⟩) :: st1)
  | some usage =>
    let totalCount := usage.count + domainCount
    if totalCount > maxDomains then
      (⟨false, maxDomains - usage.count,
          usage.timestamp + windowMinutes * msPerMinute⟩, st1)
    else if f.update then (failOpen, st1)
    else
      (⟨true, maxDomains - totalCount, now + windowMinutes * msPerMinute⟩,
        updateRL st1 ip ⟨totalCount, now⟩)

theorem lookup_updateRL (st : RLState) (ip : String) (e : RLEntry)
    (h : (st.lookup ip).isSome) : (updateRL st ip e).lookup ip = some e := by
  induction st with
  | nil => simp [List.lookup] at h
  | cons p rest ih =>
    obtain ⟨k, v⟩ := p
    cases hp : ip == k with
    | true => simp [updateRL, List.lookup, hp]
    | false =>
      simp only [List.lookup, hp] at h
      simpa [updateRL, List.lookup, hp] using ih h

theorem mem_purgeRL {st : RLState} {w : Int} {p : String × RLEntry}
    (h : p ∈ purgeRL st w) : p ∈ st :=
  List.mem_of_mem_filter h

theorem lookup_mem {st : RLState} {ip : String} {e : RLEntry}
    (h : st.lookup ip = some e) : (ip, e) ∈ st := by
  induction st with
  | nil => simp [List.lookup] at h
  | cons p rest ih =>
    obtain ⟨k, v⟩ := p
    cases hp : ip == k with
    | true =>
      simp only [List.lookup, hp, Option.some.injEq] at h
      have hk : ip = k := by simpa using hp
      subst hk
      subst h
      exact List.mem_cons_self _ _
    | false =>
      simp only [List.lookup, hp] at h
      exact List.mem_cons_of_mem _ (ih h)

/-- One row of the `stats` table.  The `unique_users` column holds a JSON
array serialized as text; it is modelled as the parsed list of strings. -/
structure StatsRow where
  total_requests : Int
  total_domains_checked : Int
  blocked_domains : Int
  not_blocked_domains : Int
  error_domains : Int
  last_reset : Int
  unique_users : List String
deriving Repr, DecidableEq

/-- The seed row inserted by `initializeTables` when no `"global"` row
exists: all counters 0, `last_reset = now`, `unique_users = "[]"`. -/
def defaultStatsRow (now : Int) : StatsRow := ⟨0, 0, 0, 0, 0, now, []⟩

/-- The database state of the libsql variant: the `stats` and
`rate_limits` tables, `none` when the table has not been created yet. -/
structure DbState where
  statsTab : Option (List (String × StatsRow))
  rateTab : Option RLState
deriving Repr, DecidableEq

/-- Shallow embedding of `initializeTables` from `src/src/db.ts`
(lines 36-86; `src/unnamed/part_001` lines 52-114 is the same logic):
`CREATE TABLE IF NOT EXISTS stats`, seed the `"global"` row if absent,
`CREATE TABLE IF NOT EXISTS rate_limits`. -/
def initializeTables (now : Int) (db : DbState) : DbState :=
  let t := db.statsTab.getD []
  let t1 := if (t.lookup "global").isSome then t
            else t ++ [("global", defaultStatsRow now)]
  { statsTab := some t1, rateTab := some (db.rateTab.getD []) }

/-- The argument of `incrementStats`: one optional delta per counter.
A zero field stands for an absent/zero JavaScript field (both produce no
SQL update clause for that column, which is the same as adding 0). -/
structure StatsDelta where
  requests : Int
  domainsChecked : Int
  blocked : Int
  notBlocked : Int
  errors : Int
deriving Repr, DecidableEq

/-- Apply the `SET col = col + ?` clauses of one UPDATE statement. -/
def applyDelta (r : StatsRow) (d : StatsDelta) : StatsRow :=
  { r with
    total_requests := r.total_requests + d.requests
    total_domains_checked := r.total_domains_checked + d.domainsChecked
    blocked_domains := r.blocked_domains + d.blocked
    not_blocked_domains := r.not_blocked_domains + d.notBlocked
    error_domains := r.error_domains + d.errors }

/-- Shallow embedding of `incrementStats` from `src/src/db.ts`
(lines 142-207).  When every field is falsy no query runs at all;
otherwise the `"global"` row is seeded if absent and then updated with
the field-level increments. -/
def incrementStats (now : Int) (db : DbState) (d : StatsDelta) : DbState :=
  if d.requests = 0 ∧ d.domainsChecked = 0 ∧ d.blocked = 0 ∧
      d.notBlocked = 0 ∧ d.errors = 0 then db
  else
    let t := db.statsTab.getD []
    let t1 := if (t.lookup "global").isSome then t
              else t ++ [("global", defaultStatsRow now)]
    let t2 := t1.map fun p => cond ("global" == p.1) (p.1, applyDelta p.2 d) p
    { db with statsTab := some t2 }

/-- The persisted `total_requests` counter (0 when the row is absent). -/
def getTotalRequests (db : DbState) : Int :=
  match (db.statsTab.getD []).lookup "global" with
  | some r => r.total_requests
  | none => 0

/-- One element of the result array built by `checkBatch` in
`src/src/index.ts`. -/
structure DomainCheckResult where
  originalUrl : String
  status : String
  blocked : Bool
  error : Bool
deriving Repr, DecidableEq

/-- Outcome of one external API call for a batch.  `none` models every
batch-level failure funnelled into the `catch` block of `checkBatch`
(fetch throwing, non-2xx status, unparseable or non-object body).
`some data` models a parsed object body; `data domain = none` models a
missing or non-object per-domain entry, `data domain = some b` a
well-formed entry whose `blocked` field has truthiness `b`. -/
abbrev BatchOutcome := Option (String → Option Bool)

/-- Shallow embedding of `checkBatch` from `src/src/index.ts`
(lines 171-227). -/
def checkBatch (domains : List String) (outcome : BatchOutcome) :
    List DomainCheckResult :=
  match outcome with
  | none => domains.map fun d => ⟨d, "Error: API request failed", false, true⟩
  | some data => domains.map fun d =>
      match data d with
      | none => ⟨d, "Error: Invalid response", false, true⟩
      | some b => ⟨d, cond b "Blocked" "Not Blocked", b, false⟩

/-- Partition into the slices `domains.slice(i, i + 30)` taken by the
batch loop of the `/check` handler (`batchSize = 30`).  The `fuel`
argument only makes the recursion structural: each iteration consumes
one unit and at least one list element, so with `fuel = l.length` (as
`chunks` passes) the zero-fuel-on-nonempty branch is never reached. -/
def chunksAux : Nat → List String → List (List String)
  | _, [] => []
  | 0, _ :: _ => []
  | Nat.succ m, d :: rest =>
    ((d :: rest).take 30) :: chunksAux m ((d :: rest).drop 30)

/-- The chunking of the batch loop: 30-element slices in order. -/
def chunks (l : List String) : List (List String) := chunksAux l.length l

/-- The batch loop body: batch number `i` is checked with the outcome
the external API gives to that call, results are concatenated in order. -/
def runBatches (batches : List (List String)) (api : Nat → BatchOutcome)
    (i : Nat) : List DomainCheckResult :=
  match batches with
  | [] => []
  | b :: rest => checkBatch b (api i) ++ runBatches rest api (i + 1)

/-- The whole batching loop of `app.post('/check')` in
`src/src/index.ts` (lines 126-149): sequential fixed-size batches,
results merged in input order. -/
def checkAll (domains : List String) (api : Nat → BatchOutcome) :
    List DomainCheckResult :=
  runBatches (chunks domains) api 0

/-- The `domains` field of the parsed request body of `POST /check`. -/
inductive ReqBody where
  /-- `body.domains` is present but not an array. -/
  | notArray
  /-- `body.domains` is absent; `body.domains || []` yields `[]`. -/
  | missing
  /-- `body.domains` is an array of strings. -/
  | arr (domains : List String)
deriving Repr, DecidableEq

/-- The JSON responses the libsql `/check` handler can produce on its
deterministic paths (the two 500 responses require a throwing store or
body parser, which the pure model leaves out). -/
inductive CheckResp where
  | badRequest (msg : String)
  | rateLimited (remaining resetTime : Int)
  | success (results : List DomainCheckResult) (remaining resetTime : Int)
deriving Repr, DecidableEq

/-- `RATE_LIMIT.MAX_DOMAINS` in `src/src/index.ts`. -/
def MAX_DOMAINS : Int := 1000

/-- `RATE_LIMIT.WINDOW_MINUTES` in `src/src/index.ts`. -/
def WINDOW_MINUTES : Int := 10

/-- `MAX_DOMAINS_PER_REQUEST` in `src/src/index.ts`. -/
def MAX_DOMAINS_PER_REQUEST : Nat := 100

/-- The value of `body.domains || []` followed by the `Array.isArray`
check: `none` on a non-array value, otherwise the array. -/
def bodyDomains : ReqBody → Option (List String)
  | .notArray => none
  | .missing => some []
  | .arr l => some l

/-- Shallow embedding of the `app.post('/check')` handler of
`src/src/index.ts` (lines 100-169): validation, rate limit, batch loop,
success-path stats update.  The handler threads the database state. -/
def postCheck (body : ReqBody) (ip : String) (api : Nat → BatchOutcome)
    (f : StoreFail) (now : Int) (db : DbState) : CheckResp × DbState :=
  match bodyDomains body with
  | none => (.badRequest "Invalid request: domains must be an array", db)
  | some domains =>
    if domains.length > MAX_DOMAINS_PER_REQUEST then
      (.badRequest ("Maximum " ++ toString MAX_DOMAINS_PER_REQUEST ++
        " domains per request"), db)
    else
      let rl := checkRateLimit f (db.rateTab.getD []) ip
        (domains.length : Int) MAX_DOMAINS WINDOW_MINUTES now
      let db1 : DbState := { db with rateTab := some rl.2 }
      if rl.1.allowed then
        let results := checkAll domains api
        let errors := (results.filter fun r => r.error).length
        let blocked := (results.filter fun r => !r.error && r.blocked).length
        let notBlocked :=
          (results.filter fun r => !r.error && !r.blocked).length
        let db2 := incrementStats now db1
          ⟨1, (results.length : Int), (blocked : Int), (notBlocked : Int),
            (errors : Int)⟩
        (.success results rl.1.remaining rl.1.resetTime, db2)
      else (.rateLimited rl.1.remaining rl.1.resetTime, db1)

/-- One inbound `POST /check` request through the middleware chain of
`src/src/index.ts`: the database-initialization middleware (line 35),
the stats middleware incrementing `total_requests` by 1 for every
`POST /check` (lines 57-68), then the route handler. -/
def handleCheckRequest (body : ReqBody) (ip : String)
    (api : Nat → BatchOutcome) (f : StoreFail) (now : Int) (db : DbState) :
    CheckResp × DbState :=
  let db0 := initializeTables now db
  let db1 := incrementStats now db0 ⟨1, 0, 0, 0, 0⟩
  postCheck body ip api f now db1

/-- Stats record of the KV variant (`src/unnamed/part_000`). -/
structure KVStatsData where
  totalRequests : Int
  totalDomainsChecked : Int
  uniqueUsers : List String
  blockedDomains : Int
  notBlockedDomains : Int
  errorDomains : Int
  lastReset : Int
deriving Repr, DecidableEq

/-- One result of the KV variant's `checkBatch` (`src/unnamed/part_000`
lines 587-637): only `originalUrl` and `status`, no boolean flags. -/
structure KVResult where
  originalUrl : String
  status : String
deriving Repr, DecidableEq

/-- The KV variant's `checkBatch`. -/
def kvCheckBatch (domains : List String) (outcome : BatchOutcome) :
    List KVResult :=
  match outcome with
  | none => domains.map fun d => ⟨d, "Error: API request failed"⟩
  | some data => domains.map fun d =>
      match data d with
      | none => ⟨d, "Error: Invalid response"⟩
      | some b => ⟨d, cond b "Blocked" "Not Blocked"⟩

/-- Shallow embedding of `checkRateLimit` in `src/unnamed/part_000`
(lines 86-133).  It reads only the in-memory cache (keyed
`rate_limit:` + ip), expires entries lazily, and writes through to KV;
the cache map is the state.  Constants are `MAX_DOMAINS = 1000`,
`WINDOW_MINUTES = 10`. -/
def kvCheckRateLimit (st : RLState) (ip : String) (domainCount now : Int) :
    RLResult × RLState :=
  let key := "rate_limit:" ++ ip
  let windowStart := now - 10 * msPerMinute
  match st.lookup key with
  | some usage =>
    if usage.timestamp < windowStart then
      let e : RLEntry := ⟨domainCount, now⟩
      (⟨decide (domainCount ≤ 1000), 1000 - domainCount,
          now + 10 * msPerMinute⟩, updateRL st key e)
    else
      let totalCount := usage.count + domainCount
      if totalCount > 1000 then
        (⟨false, 1000 - usage.count, usage.timestamp + 10 * msPerMinute⟩, st)
      else
        (⟨true, 1000 - totalCount, usage.timestamp + 10 * msPerMinute⟩,
          updateRL st key ⟨totalCount, usage.timestamp⟩)
  | none =>
    let e : RLEntry := ⟨domainCount, now⟩
    (⟨decide (domainCount ≤ 1000), 1000 - domainCount,
        now + 10 * msPerMinute⟩, (key, e) :: st)

/-- The KV variant's batch loop body (same shape as `runBatches`). -/
def runKvBatches (batches : List (List String)) (api : Nat → BatchOutcome)
    (i : Nat) : List KVResult :=
  match batches with
  | [] => []
  | b :: rest => kvCheckBatch b (api i) ++ runKvBatches rest api (i + 1)

/-- The JSON responses of the KV variant's `/check` handler. -/
inductive KVResp where
  | badRequest (msg : String)
  | rateLimited (remaining resetTime : Int)
  | success (results : List KVResult) (remaining resetTime : Int)
deriving Repr, DecidableEq

/-- Shallow embedding of `app.post('/check')` in `src/unnamed/part_000`
(lines 520-585): body validation (including the empty-array rejection),
unique-user and domains-checked stats updates, rate limit, batch loop,
per-status stats tallies.  State is the stats record plus the rate-limit
cache. -/
def kvPostCheck (body : ReqBody) (ip : String) (api : Nat → BatchOutcome)
    (now : Int) (stats : KVStatsData) (rlSt : RLState) :
    KVResp × KVStatsData × RLState :=
  match body with
  | .notArray => (.badRequest "Invalid domains format", stats, rlSt)
  | .missing => (.badRequest "Invalid domains format", stats, rlSt)
  | .arr domains =>
    if domains.length = 0 then
      (.badRequest "No domains provided", stats, rlSt)
    else
      let users := if stats.uniqueUsers.contains ip then stats.uniqueUsers
                   else stats.uniqueUsers ++ [ip]
      let stats1 := { stats with
        uniqueUsers := users
        totalDomainsChecked :=
          stats.totalDomainsChecked + (domains.length : Int) }
      let rl := kvCheckRateLimit rlSt ip (domains.length : Int) now
      if rl.1.allowed then
        let results := runKvBatches (chunks domains) api 0
        let stats2 := { stats1 with
          blockedDomains := stats1.blockedDomains +
            ((results.filter fun r => r.status == "Blocked").length : Int)
          notBlockedDomains := stats1.notBlockedDomains +
            ((results.filter fun r => r.status == "Not Blocked").length : Int)
          errorDomains := stats1.errorDomains +
            ((results.filter fun r =>
              !(r.status == "Blocked") && !(r.status == "Not Blocked")).length
              : Int) }
        (.success results rl.1.remaining rl.1.resetTime, stats2, rl.2)
      else (.rateLimited rl.1.remaining rl.1.resetTime, stats1, rl.2)

/-- JSON values appearing in the `/stats/data` responses: numbers,
arrays of strings, and flat objects with numeric fields. -/
inductive JVal where
  | num (n : Int)
  | arr (l : List String)
  | obj (fields : List (String × Int))
deriving Repr, DecidableEq

/-- Shallow embedding of `app.get('/stats/data')` in `src/src/index.ts`
(lines 79-98): the JSON object returned for a stored stats row.  Note
`uniqueUsers` is `JSON.parse(stats.unique_users)` — the array itself. -/
def statsDataSrc (r : StatsRow) : List (String × JVal) :=
  [("totalRequests", .num r.total_requests),
   ("totalDomainsChecked", .num r.total_domains_checked),
   ("blockedDomains", .num r.blocked_domains),
   ("notBlockedDomains", .num r.not_blocked_domains),
   ("errorDomains", .num r.error_domains),
   ("lastReset", .num r.last_reset),
   ("uniqueUsers", .arr r.unique_users)]

/-- Shallow embedding of `app.get('/stats/data')` in
`src/unnamed/part_000` (lines 502-517): here `uniqueUsers` is
`stats.uniqueUsers.length`, a number. -/
def statsDataKV (s : KVStatsData) : List (String × JVal) :=
  [("totalRequests", .num s.totalRequests),
   ("totalDomainsChecked", .num s.totalDomainsChecked),
   ("uniqueUsers", .num (s.uniqueUsers.length : Int)),
   ("blockedDomains", .num s.blockedDomains),
   ("notBlockedDomains", .num s.notBlockedDomains),
   ("errorDomains", .num s.errorDomains),
   ("lastReset", .num s.lastReset),
   ("rateLimit", .obj [("max", 1000), ("window", 10)])]

/-- Supporting lemma: the UPDATE of `incrementStats` acts as
`Option.map (applyDelta · d)` on the lookup of any key. -/
theorem lookup_map_applyDelta (l : List (String × StatsRow)) (k : String)
    (d : StatsDelta) :
    (l.map fun p => cond (k == p.1) (p.1, applyDelta p.2 d) p).lookup k
      = (l.lookup k).map (fun r => applyDelta r d) := by
  induction l with
  | nil => rfl
  | cons p rest ih =>
    obtain ⟨k', v⟩ := p
    cases hp : k == k' with
    | true => simp [List.lookup, hp]
    | false => simpa [List.lookup, hp] using ih

/-- Supporting lemma: appending a `(k, v)` row makes `k` present. -/
theorem lookup_append_single {α : Type} (l : List (String × α)) (k : String)
    (v : α) : ((l ++ [(k, v)]).lookup k).isSome := by
  induction l with
  | nil => simp [List.lookup]
  | cons p rest ih =>
    obtain ⟨k', v'⟩ := p
    cases hp : k == k' with
    | true => simp [List.lookup, hp]
    | false =>
      rw [List.cons_append]
      simp only [List.lookup, hp]
      exact ih

/-- Invariant of the `rate_limits` table: every stored count is at most
`maxDomains`. -/
def RLInv (maxDomains : Int) (st : RLState) : Prop :=
  ∀ p ∈ st, p.2.count ≤ maxDomains

/-- Supporting lemma: `updateRL` with an in-bound entry keeps `RLInv`. -/
theorem RLInv_updateRL {maxDomains : Int} {st : RLState} {ip : String}
    {e : RLEntry} (hinv : RLInv maxDomains st) (he : e.count ≤ maxDomains) :
    RLInv maxDomains (updateRL st ip e) := by
  intro p hp
  obtain ⟨q, hq, rfl⟩ := List.mem_map.mp hp
  cases hb : ip == q.1 with
  | true => simpa [hb] using he
  | false => simpa [hb] using hinv q hq

/-- Supporting lemma: the purge keeps `RLInv`. -/
theorem RLInv_purgeRL {maxDomains w : Int} {st : RLState}
    (hinv : RLInv maxDomains st) : RLInv maxDomains (purgeRL st w) :=
  fun p hp => hinv p (mem_purgeRL hp)

/-- C1.  The claim says the top-up accept path of `checkRateLimit`
updates the stored count to `totalCount` while leaving the timestamp
unchanged.  In `src/src/db.ts` (line 269) the UPDATE statement sets
`timestamp = now` as well: with a stored entry `(count 5, timestamp
1000)` and 10 more domains at `now = 2000`, the stored entry afterwards
is `(15, 2000)`, not `(15, 1000)`. -/
theorem c1_counterexample :
    (checkRateLimit noFail [("1.2.3.4", ⟨5, 1000⟩)] "1.2.3.4"
        10 1000 10 2000).2.lookup "1.2.3.4" = some ⟨15, 2000⟩
    ∧ some (RLEntry.mk 15 2000) ≠ some (RLEntry.mk 15 1000) := by
  constructor
  · rfl
  · decide

/-- C1 (amended).  On the top-up accept path (`entry.count +
domainCount ≤ maxDomains` for an unexpired entry), `checkRateLimit`
updates the stored entry to count `totalCount` AND timestamp `now`
(the window origin slides on partial consumption), and returns
`allowed = true`, `remaining = maxDomains - totalCount`,
`resetTime = now + window`. -/
theorem checkRateLimit_topup_accept (st : RLState) (ip : String)
    (n maxD w now : Int) (u : RLEntry)
    (hu : (purgeRL st (now - w * msPerMinute)).lookup ip = some u)
    (hle : u.count + n ≤ maxD) :
    checkRateLimit noFail st ip n maxD w now
      = (⟨true, maxD - (u.count + n), now + w * msPerMinute⟩,
          updateRL (purgeRL st (now - w * msPerMinute)) ip ⟨u.count + n, now⟩)
    ∧ (checkRateLimit noFail st ip n maxD w now).2.lookup ip
        = some ⟨u.count + n, now⟩ := by
  have hmain : checkRateLimit noFail st ip n maxD w now
      = (⟨true, maxD - (u.count + n), now + w * msPerMinute⟩,
          updateRL (purgeRL st (now - w * msPerMinute)) ip
            ⟨u.count + n, now⟩) := by
    simp only [checkRateLimit, noFail]
    rw [if_neg (by simp), if_neg (by simp), hu]
    simp only
    rw [if_neg (by omega), if_neg (by simp)]
  refine ⟨hmain, ?_⟩
  rw [hmain]
  exact lookup_updateRL _ _ _ (by rw [hu]; rfl)

/-- Witness for C1's amended theorem at a concrete input. -/
theorem checkRateLimit_topup_accept_witness :
    (purgeRL [("w1", RLEntry.mk 5 1000)] (2000 - 10 * msPerMinute)).lookup "w1"
        = some (RLEntry.mk 5 1000)
    ∧ (5 : Int) + 10 ≤ 1000
    ∧ checkRateLimit noFail [("w1", RLEntry.mk 5 1000)] "w1" 10 1000 10 2000
        = (⟨true, 1000 - (5 + 10), 2000 + 10 * msPerMinute⟩,
            updateRL (purgeRL [("w1", RLEntry.mk 5 1000)]
              (2000 - 10 * msPerMinute)) "w1" ⟨5 + 10, 2000⟩) :=
  ⟨by decide, by decide,
    (checkRateLimit_topup_accept [("w1", RLEntry.mk 5 1000)] "w1"
      10 1000 10 2000 (RLEntry.mk 5 1000) (by decide) (by decide)).1⟩

/-- Supporting lemma: in the KV variant (`src/unnamed/part_000` lines
109-132), by contrast, the top-up accept path keeps the stored
timestamp and anchors `resetTime` to the original window start — the
combination the spec attributes to the libsql path holds in neither
variant as a whole. -/
theorem kvCheckRateLimit_topup_accept (st : RLState) (ip : String)
    (n now : Int) (u : RLEntry)
    (hu : st.lookup ("rate_limit:" ++ ip) = some u)
    (hfresh : ¬ u.timestamp < now - 10 * msPerMinute)
    (hle : u.count + n ≤ 1000) :
    kvCheckRateLimit st ip n now
      = (⟨true, 1000 - (u.count + n), u.timestamp + 10 * msPerMinute⟩,
          updateRL st ("rate_limit:" ++ ip) ⟨u.count + n, u.timestamp⟩) := by
  unfold kvCheckRateLimit
  dsimp only
  rw [hu]
  dsimp only
  rw [if_neg hfresh, if_neg (by omega)]

/-- C5.  On the top-up reject path (`entry.count + domainCount >
maxDomains` for an unexpired entry), `checkRateLimit` returns
`allowed = false`, `remaining = maxDomains - entry.count`,
`resetTime = entry.timestamp + window` (anchored to the original
window), and the final table is exactly the purged table, in which the
client's entry is still stored unchanged. -/
theorem checkRateLimit_topup_reject (st : RLState) (ip : String)
    (n maxD w now : Int) (u : RLEntry)
    (hu : (purgeRL st (now - w * msPerMinute)).lookup ip = some u)
    (hgt : u.count + n > maxD) :
    (checkRateLimit noFail st ip n maxD w now).1
      = ⟨false, maxD - u.count, u.timestamp + w * msPerMinute⟩
    ∧ (checkRateLimit noFail st ip n maxD w now).2
        = purgeRL st (now - w * msPerMinute)
    ∧ (checkRateLimit noFail st ip n maxD w now).2.lookup ip = some u := by
  have hmain : checkRateLimit noFail st ip n maxD w now
      = (⟨false, maxD - u.count, u.timestamp + w * msPerMinute⟩,
          purgeRL st (now - w * msPerMinute)) := by
    simp only [checkRateLimit, noFail]
    rw [if_neg (by simp), if_neg (by simp), hu]
    simp only
    rw [if_pos (by omega)]
  exact ⟨by rw [hmain], by rw [hmain], by rw [hmain]; exact hu⟩

/-- Witness for C5's theorem at a concrete input. -/
theorem checkRateLimit_topup_reject_witness :
    (purgeRL [("w5", RLEntry.mk 995 1000)] (2000 - 10 * msPerMinute)).lookup
        "w5" = some (RLEntry.mk 995 1000)
    ∧ (995 : Int) + 10 > 1000
    ∧ (checkRateLimit noFail [("w5", RLEntry.mk 995 1000)] "w5"
          10 1000 10 2000).1
        = ⟨false, 1000 - 995, 1000 + 10 * msPerMinute⟩ :=
  ⟨by decide, by decide,
    (checkRateLimit_topup_reject [("w5", RLEntry.mk 995 1000)] "w5"
      10 1000 10 2000 (RLEntry.mk 995 1000) (by decide) (by decide)).1⟩

/-- C6.  Whenever a store operation executed inside `checkRateLimit`
throws (the purge DELETE, the SELECT, the INSERT on the fresh path, or
the UPDATE on the top-up path), the `catch` block fails open: the call
returns `allowed = true`, `remaining = maxDomains -
requestedDomainCount`, `resetTime = now + window`. -/
theorem checkRateLimit_fail_open (f : StoreFail) (st : RLState) (ip : String)
    (n maxD w now : Int)
    (h : f.purge = true ∨ f.select = true
      ∨ (f.insert = true
          ∧ (purgeRL st (now - w * msPerMinute)).lookup ip = none
          ∧ n ≤ maxD)
      ∨ (f.update = true
          ∧ ∃ u, (purgeRL st (now - w * msPerMinute)).lookup ip = some u
              ∧ u.count + n ≤ maxD)) :
    (checkRateLimit f st ip n maxD w now).1
      = ⟨true, maxD - n, now + w * msPerMinute⟩ := by
  rcases h with hp | hs | ⟨hi, hnone, hle⟩ | ⟨hup, u, hsome, hle⟩
  · simp [checkRateLimit, hp]
  · cases hp : f.purge with
    | true => simp [checkRateLimit, hp]
    | false => simp [checkRateLimit, hp, hs]
  · cases hp : f.purge with
    | true => simp [checkRateLimit, hp]
    | false =>
      cases hs : f.select with
      | true => simp [checkRateLimit, hp, hs]
      | false =>
        simp only [checkRateLimit, hp, hs, Bool.false_eq_true, if_false, hnone]
        rw [if_neg (by omega), if_pos hi]
  · cases hp : f.purge with
    | true => simp [checkRateLimit, hp]
    | false =>
      cases hs : f.select with
      | true => simp [checkRateLimit, hp, hs]
      | false =>
        simp only [checkRateLimit, hp, hs, Bool.false_eq_true, if_false, hsome]
        rw [if_neg (by omega), if_pos hup]

/-- Witness for C6's theorem at a concrete input: the DELETE throws. -/
theorem checkRateLimit_fail_open_witness :
    ((StoreFail.mk true false false false).purge = true
      ∨ (StoreFail.mk true false false false).select = true
      ∨ ((StoreFail.mk true false false false).insert = true
          ∧ (purgeRL [] (500 - 10 * msPerMinute)).lookup "w6" = none
          ∧ (30 : Int) ≤ 1000)
      ∨ ((StoreFail.mk true false false false).update = true
          ∧ ∃ u, (purgeRL [] (500 - 10 * msPerMinute)).lookup "w6" = some u
              ∧ u.count + 30 ≤ 1000))
    ∧ (checkRateLimit (StoreFail.mk true false false false) [] "w6"
          30 1000 10 500).1
        = ⟨true, 1000 - 30, 500 + 10 * msPerMinute⟩ :=
  ⟨Or.inl rfl,
    checkRateLimit_fail_open (StoreFail.mk true false false false) [] "w6"
      30 1000 10 500 (Or.inl rfl)⟩

/-- C10.  Assuming every stored count is at most `maxDomains`, a call to
`checkRateLimit` only ever writes counts at most `maxDomains`, and when
`requestedDomainCount ≤ maxDomains` the returned `remaining` is
nonnegative on every path (fresh accept, fresh reject, top-up accept,
top-up reject, and the store-error fallback). -/
theorem checkRateLimit_count_invariant (f : StoreFail) (st : RLState)
    (ip : String) (n maxD w now : Int) (hinv : RLInv maxD st) :
    RLInv maxD (checkRateLimit f st ip n maxD w now).2
    ∧ (n ≤ maxD → 0 ≤ (checkRateLimit f st ip n maxD w now).1.remaining) := by
  have hinv1 : RLInv maxD (purgeRL st (now - w * msPerMinute)) :=
    RLInv_purgeRL hinv
  simp only [checkRateLimit]
  split
  · exact ⟨hinv, fun hn => by simp; omega⟩
  · split
    · exact ⟨hinv1, fun hn => by simp; omega⟩
    · split
      · rename_i hnone
        split
        · rename_i hgt
          exact ⟨hinv1, fun hn => by omega⟩
        · split
          · exact ⟨hinv1, fun hn => by simp; omega⟩
          · rename_i hngt _
            refine ⟨?_, fun hn => by simp; omega⟩
            intro p hp
            rcases List.mem_cons.mp hp with rfl | hp'
            · simpa using by omega
            · exact hinv1 p hp'
      · rename_i u hsome
        have hu : u.count ≤ maxD := hinv1 _ (lookup_mem hsome)
        split
        · rename_i hgt
          exact ⟨hinv1, fun hn => by simp; omega⟩
        · split
          · exact ⟨hinv1, fun hn => by simp; omega⟩
          · rename_i hngt _
            refine ⟨RLInv_updateRL hinv1 (by simp; omega),
              fun hn => by simp; omega⟩

/-- Witness for C10's theorem at a concrete input. -/
theorem checkRateLimit_count_invariant_witness :
    RLInv 1000 [("w10", RLEntry.mk 900 100)]
    ∧ (RLInv 1000 (checkRateLimit noFail [("w10", RLEntry.mk 900 100)] "w10"
          50 1000 10 200).2
        ∧ ((50 : Int) ≤ 1000 →
            0 ≤ (checkRateLimit noFail [("w10", RLEntry.mk 900 100)] "w10"
              50 1000 10 200).1.remaining)) :=
  ⟨by intro p hp; simp at hp; subst hp; decide,
    checkRateLimit_count_invariant noFail [("w10", RLEntry.mk 900 100)] "w10"
      50 1000 10 200 (by intro p hp; simp at hp; subst hp; decide)⟩

/-- Supporting lemma: every result row of `checkBatch` carries the
submitted domain string, in order. -/
theorem checkBatch_originalUrl (b : List String) (o : BatchOutcome) :
    (checkBatch b o).map (fun r => r.originalUrl) = b := by
  cases o with
  | none =>
    induction b with
    | nil => rfl
    | cons d rest ih => simp_all [checkBatch]
  | some data =>
    induction b with
    | nil => rfl
    | cons d rest ih =>
      cases hd : data d <;> simp_all [checkBatch, hd]

/-- Supporting lemma: the sequential batch loop over the 30-element
chunks reproduces the input list of domains in `originalUrl`s. -/
theorem runBatches_chunksAux_originalUrl :
    ∀ (fuel : Nat) (l : List String), l.length ≤ fuel →
      ∀ (api : Nat → BatchOutcome) (i : Nat),
        (runBatches (chunksAux fuel l) api i).map (fun r => r.originalUrl)
          = l := by
  intro fuel
  induction fuel with
  | zero =>
    intro l hl api i
    have : l = [] := List.length_eq_zero.mp (Nat.le_zero.mp hl)
    subst this
    rfl
  | succ m ih =>
    intro l hl api i
    cases l with
    | nil => rfl
    | cons d rest =>
      simp only [chunksAux, runBatches, List.map_append]
      rw [checkBatch_originalUrl,
        ih ((d :: rest).drop 30)
          (by simp only [List.length_drop, List.length_cons] at hl ⊢; omega)
          api (i + 1)]
      exact List.take_append_drop 30 (d :: rest)

/-- Supporting lemma: `checkAll` preserves the input sequence of
domains one-to-one, in order, character for character. -/
theorem checkAll_originalUrl (domains : List String)
    (api : Nat → BatchOutcome) :
    (checkAll domains api).map (fun r => r.originalUrl) = domains :=
  runBatches_chunksAux_originalUrl domains.length domains le_rfl api 0

/-- C7.  When the external request for a batch fails (modelled by the
`none` outcome: network error, non-2xx, or an unparseable/non-object
body), every domain of the batch yields exactly the result
`status = "Error: API request failed"`, `blocked = false`,
`error = true` — one result per domain, in order. -/
theorem checkBatch_api_failure (domains : List String) :
    checkBatch domains none
      = domains.map (fun d =>
          DomainCheckResult.mk d "Error: API request failed" false true)
    ∧ (checkBatch domains none).length = domains.length
    ∧ (checkBatch domains none).map (fun r => r.originalUrl) = domains :=
  ⟨rfl, by simp [checkBatch], checkBatch_originalUrl domains none⟩

/-- C3.  Every `200` response of the `/check` handler carries exactly
one result per submitted domain: same length, same order, and the i-th
`originalUrl` is the i-th submitted string (no deduplication, no
reordering, no normalization). -/
theorem checkResults_preserve_domains (domains : List String) (ip : String)
    (api : Nat → BatchOutcome) (f : StoreFail) (now : Int) (db : DbState)
    (results : List DomainCheckResult) (rem rt : Int)
    (h : (handleCheckRequest (.arr domains) ip api f now db).1
      = .success results rem rt) :
    results.length = domains.length
    ∧ results.map (fun r => r.originalUrl) = domains := by
  have hres : results = checkAll domains api := by
    unfold handleCheckRequest postCheck at h
    simp only [bodyDomains] at h
    split at h
    · exact absurd h (by simp)
    · split at h
      · simp only [CheckResp.success.injEq] at h
        exact h.1.symm
      · exact absurd h (by simp)
  subst hres
  refine ⟨?_, checkAll_originalUrl domains api⟩
  have := congrArg List.length (checkAll_originalUrl domains api)
  simpa using this

/-- Witness for C3's theorem at a concrete input (the example of the
spec's testable property: good.com not blocked, bad.com blocked). -/
theorem checkResults_preserve_domains_witness :
    (handleCheckRequest (.arr ["good.com", "bad.com"]) "3.3.3.3"
        (fun _ => some fun d => cond (d == "bad.com") (some true)
          (cond (d == "good.com") (some false) none))
        noFail 0 ⟨none, none⟩).1
      = .success
          [DomainCheckResult.mk "good.com" "Not Blocked" false false,
            DomainCheckResult.mk "bad.com" "Blocked" true false] 998 600000
    ∧ ([DomainCheckResult.mk "good.com" "Not Blocked" false false,
          DomainCheckResult.mk "bad.com" "Blocked" true false].length
        = ["good.com", "bad.com"].length
      ∧ [DomainCheckResult.mk "good.com" "Not Blocked" false false,
          DomainCheckResult.mk "bad.com" "Blocked" true false].map
            (fun r => r.originalUrl) = ["good.com", "bad.com"]) :=
  ⟨by decide,
    checkResults_preserve_domains ["good.com", "bad.com"] "3.3.3.3"
      (fun _ => some fun d => cond (d == "bad.com") (some true)
        (cond (d == "good.com") (some false) none))
      noFail 0 ⟨none, none⟩ _ 998 600000 (by decide)⟩

/-- C4.  The claim says `POST /check` with an empty domains array is
rejected with 400 `{error: "No domains provided"}`.  The libsql handler
in `src/src/index.ts` has no such check: an empty array passes both
validations, consumes the rate limiter with 0 domains, and the request
succeeds with 200 and an empty results array. -/
theorem c4_counterexample :
    (handleCheckRequest (.arr []) "unknown" (fun _ => none) noFail 0
        ⟨none, none⟩).1 = .success [] 1000 600000
    ∧ CheckResp.success [] 1000 600000
        ≠ .badRequest "No domains provided" := by
  constructor
  · rfl
  · decide

/-- C4 (amended).  Only the KV-variant handler (`src/unnamed/part_000`
lines 529-531) rejects an empty domains array, with 400
`{error: "No domains provided"}`, before the stats update, the
rate-limit consumption and any external API call: its state comes back
untouched.  The libsql handler (`src/src/index.ts`) has no empty-array
check and answers 200 with an empty results array. -/
theorem kvPostCheck_no_domains (ip : String) (api : Nat → BatchOutcome)
    (now : Int) (stats : KVStatsData) (rlSt : RLState) :
    kvPostCheck (.arr []) ip api now stats rlSt
      = (.badRequest "No domains provided", stats, rlSt) := by
  simp [kvPostCheck]

/-- Supporting lemma: `initializeTables` always leaves a `"global"`
stats row in place. -/
theorem initializeTables_global_isSome (now : Int) (db : DbState) :
    (((initializeTables now db).statsTab.getD []).lookup "global").isSome
      := by
  unfold initializeTables
  simp only [Option.getD_some]
  split
  · rename_i h
    exact h
  · exact lookup_append_single _ "global" (defaultStatsRow now)

/-- Supporting lemma: when the `"global"` row is present,
`incrementStats` adds exactly `d.requests` to `total_requests` and
keeps the row present. -/
theorem incrementStats_total_requests (now : Int) (db : DbState)
    (d : StatsDelta)
    (h : ((db.statsTab.getD []).lookup "global").isSome) :
    getTotalRequests (incrementStats now db d)
      = getTotalRequests db + d.requests
    ∧ (((incrementStats now db d).statsTab.getD []).lookup
        "global").isSome := by
  unfold incrementStats
  split
  · rename_i hz
    rw [hz.1]
    exact ⟨by omega, h⟩
  · dsimp only
    rw [if_pos h]
    obtain ⟨r, hr⟩ := Option.isSome_iff_exists.mp h
    unfold getTotalRequests
    simp only [Option.getD_some, lookup_map_applyDelta, hr]
    exact ⟨by simp [applyDelta], by simp⟩

/-- Supporting lemma: the rate-limit table write of `postCheck` leaves
the stats table alone. -/
theorem getTotalRequests_setRate (db : DbState) (r : RLState) :
    getTotalRequests { db with rateTab := some r } = getTotalRequests db :=
  rfl

/-- C2.  The claim says `total_requests` grows by exactly 1 per inbound
`POST /check` regardless of outcome.  On the success path it grows by
2: once in the stats middleware (`src/src/index.ts` lines 57-68) and a
second time in the handler's own stats update (lines 151-158).  From an
empty database, one successful single-domain check leaves
`total_requests = 2`. -/
theorem c2_counterexample :
    getTotalRequests (initializeTables 0 ⟨none, none⟩) = 0
    ∧ getTotalRequests
        (handleCheckRequest (.arr ["example.com"]) "1.2.3.4"
          (fun _ => some fun d => cond (d == "example.com") (some true) none)
          noFail 0 ⟨none, none⟩).2 = 2
    ∧ (2 : Int) ≠ 0 + 1 := by
  refine ⟨rfl, ?_, by decide⟩
  rfl

/-- Supporting lemma: the handler body adds 1 to `total_requests` on
its success path and 0 on every other path. -/
theorem postCheck_totalRequests (body : ReqBody) (ip : String)
    (api : Nat → BatchOutcome) (f : StoreFail) (now : Int) (db : DbState)
    (h : ((db.statsTab.getD []).lookup "global").isSome) :
    getTotalRequests (postCheck body ip api f now db).2
      = getTotalRequests db
        + (match (postCheck body ip api f now db).1 with
           | .success _ _ _ => 1
           | _ => 0) := by
  unfold postCheck
  cases hb : bodyDomains body with
  | none => simp
  | some domains =>
    simp only
    split
    · simp
    · split
      · refine Eq.trans ((incrementStats_total_requests now _ _ ?_).1) ?_
        · exact h
        · rw [getTotalRequests_setRate]
      · rw [getTotalRequests_setRate]
        simp

/-- C2 (amended).  Relative to the request's post-initialization
database state, `total_requests` grows by exactly 1 on every
validation-failure and rate-limited `POST /check`, and by exactly 2 on
every successful one (stats middleware plus the handler's success-path
update). -/
theorem totalRequests_per_request (body : ReqBody) (ip : String)
    (api : Nat → BatchOutcome) (f : StoreFail) (now : Int) (db : DbState) :
    getTotalRequests (handleCheckRequest body ip api f now db).2
      = getTotalRequests (initializeTables now db)
        + (match (handleCheckRequest body ip api f now db).1 with
           | .success _ _ _ => 2
           | _ => 1) := by
  unfold handleCheckRequest
  have h0 := initializeTables_global_isSome now db
  have h1 := incrementStats_total_requests now (initializeTables now db)
    ⟨1, 0, 0, 0, 0⟩ h0
  have h2 := postCheck_totalRequests body ip api f now
    (incrementStats now (initializeTables now db) ⟨1, 0, 0, 0, 0⟩) h1.2
  simp only at h2 ⊢
  rw [h2, h1.1]
  cases (postCheck body ip api f now
    (incrementStats now (initializeTables now db) ⟨1, 0, 0, 0, 0⟩)).1 <;>
    (simp; try omega)

/-- Number of `stats` rows stored under key `k` (the table's primary
key makes this at most 1 in any state the database can reach). -/
def countKey (t : List (String × StatsRow)) (k : String) : Nat :=
  (t.filter fun p => k == p.1).length

theorem countKey_append (l l' : List (String × StatsRow)) (k : String) :
    countKey (l ++ l') k = countKey l k + countKey l' k := by
  simp [countKey, List.filter_append]

theorem countKey_single (k : String) (v : StatsRow) :
    countKey [(k, v)] k = 1 := by
  simp [countKey, List.filter]

theorem countKey_eq_zero_of_lookup_none
    {t : List (String × StatsRow)} {k : String} (h : t.lookup k = none) :
    countKey t k = 0 := by
  induction t with
  | nil => rfl
  | cons p rest ih =>
    obtain ⟨k', v⟩ := p
    cases hp : k == k' with
    | true => simp [List.lookup, hp] at h
    | false =>
      simp only [List.lookup, hp] at h
      simpa [countKey, List.filter, hp] using ih h

theorem countKey_pos_of_lookup_isSome
    {t : List (String × StatsRow)} {k : String} (h : (t.lookup k).isSome) :
    1 ≤ countKey t k := by
  induction t with
  | nil => simp [List.lookup] at h
  | cons p rest ih =>
    obtain ⟨k', v⟩ := p
    cases hp : k == k' with
    | true => simp [countKey, List.filter, hp]
    | false =>
      simp only [List.lookup, hp] at h
      simpa [countKey, List.filter, hp] using ih h

/-- C9.  `initializeTables` is idempotent: under the primary-key
invariant (at most one `"global"` row), running it again changes
nothing, exactly one `"global"` stats row exists afterwards, and an
already-present `"global"` row is passed through unaltered (no counter
value or `unique_users` content is re-seeded). -/
theorem initializeTables_idempotent (db : DbState) (now1 now2 : Int)
    (hpk : countKey (db.statsTab.getD []) "global" ≤ 1) :
    initializeTables now2 (initializeTables now1 db)
        = initializeTables now1 db
    ∧ countKey ((initializeTables now1 db).statsTab.getD []) "global" = 1
    ∧ ∀ r, (db.statsTab.getD []).lookup "global" = some r →
        ((initializeTables now1 db).statsTab.getD []).lookup "global"
          = some r := by
  have hg := initializeTables_global_isSome now1 db
  refine ⟨?_, ?_, ?_⟩
  · obtain ⟨a, b, hab⟩ : ∃ a b, initializeTables now1 db
        = DbState.mk (some a) (some b) := ⟨_, _, rfl⟩
    rw [hab] at hg ⊢
    simp only [Option.getD_some] at hg
    unfold initializeTables
    simp only [Option.getD_some]
    rw [if_pos hg]
  · cases hs : (db.statsTab.getD []).lookup "global" with
    | some r =>
      unfold initializeTables
      dsimp only
      rw [Option.getD_some, if_pos (by rw [hs]; rfl)]
      have := countKey_pos_of_lookup_isSome (t := db.statsTab.getD [])
        (k := "global") (by rw [hs]; rfl)
      omega
    | none =>
      unfold initializeTables
      dsimp only
      rw [Option.getD_some, if_neg (by rw [hs]; simp)]
      rw [countKey_append, countKey_eq_zero_of_lookup_none hs,
        countKey_single]
  · intro r hr
    unfold initializeTables
    dsimp only
    rw [Option.getD_some, if_pos (by rw [hr]; rfl)]
    exact hr

/-- Witness for C9's theorem at a concrete already-initialized store. -/
theorem initializeTables_idempotent_witness :
    countKey ((DbState.mk
        (some [("global", StatsRow.mk 3 4 5 6 7 8 ["x"])])
        (some [])).statsTab.getD []) "global" ≤ 1
    ∧ (initializeTables 99 (initializeTables 42
          (DbState.mk (some [("global", StatsRow.mk 3 4 5 6 7 8 ["x"])])
            (some [])))
        = initializeTables 42
            (DbState.mk (some [("global", StatsRow.mk 3 4 5 6 7 8 ["x"])])
              (some []))
      ∧ countKey ((initializeTables 42
            (DbState.mk (some [("global", StatsRow.mk 3 4 5 6 7 8 ["x"])])
              (some []))).statsTab.getD []) "global" = 1
      ∧ ∀ r, ((DbState.mk
            (some [("global", StatsRow.mk 3 4 5 6 7 8 ["x"])])
            (some [])).statsTab.getD []).lookup "global" = some r →
          ((initializeTables 42
              (DbState.mk (some [("global", StatsRow.mk 3 4 5 6 7 8 ["x"])])
                (some []))).statsTab.getD []).lookup "global" = some r) :=
  ⟨by decide,
    initializeTables_idempotent
      (DbState.mk (some [("global", StatsRow.mk 3 4 5 6 7 8 ["x"])])
        (some [])) 42 99 (by decide)⟩

/-- C8.  The claim says `GET /stats/data` returns `uniqueUsers` as the
count (a number) of distinct client identifiers.  The libsql handler
(`src/src/index.ts` line 89) returns `JSON.parse(stats.unique_users)`,
the array itself: with two stored identifiers the field is the array
`["a", "b"]`, not the number 2. -/
theorem c8_counterexample :
    List.lookup "uniqueUsers"
        (statsDataSrc (StatsRow.mk 7 0 0 0 0 123 ["a", "b"]))
      = some (.arr ["a", "b"])
    ∧ some (JVal.arr ["a", "b"]) ≠ some (JVal.num 2) := by
  constructor
  · rfl
  · decide

/-- C8 (amended).  Only the KV-variant handler (`src/unnamed/part_000`
line 507) returns `uniqueUsers` as a number: the count of the stored
identifiers, which under the handler's no-duplicate recording equals
the number of distinct identifiers; the other documented fields are
returned alongside.  The libsql handler returns the parsed identifier
array itself instead of its count. -/
theorem statsData_uniqueUsers (s : KVStatsData) (r : StatsRow)
    (h : s.uniqueUsers.Nodup) :
    List.lookup "uniqueUsers" (statsDataKV s)
      = some (.num (s.uniqueUsers.toFinset.card : Int))
    ∧ List.lookup "totalRequests" (statsDataKV s)
        = some (.num s.totalRequests)
    ∧ List.lookup "totalDomainsChecked" (statsDataKV s)
        = some (.num s.totalDomainsChecked)
    ∧ List.lookup "blockedDomains" (statsDataKV s)
        = some (.num s.blockedDomains)
    ∧ List.lookup "notBlockedDomains" (statsDataKV s)
        = some (.num s.notBlockedDomains)
    ∧ List.lookup "errorDomains" (statsDataKV s)
        = some (.num s.errorDomains)
    ∧ List.lookup "lastReset" (statsDataKV s) = some (.num s.lastReset)
    ∧ List.lookup "uniqueUsers" (statsDataSrc r)
        = some (.arr r.unique_users) := by
  have hcard : s.uniqueUsers.toFinset.card = s.uniqueUsers.length :=
    List.toFinset_card_of_nodup h
  exact ⟨by rw [hcard]; rfl, rfl, rfl, rfl, rfl, rfl, rfl, rfl⟩

/-- Supporting lemma: the KV handler's recording (`push` only when
`includes` is false) keeps the stored identifier list duplicate-free,
which is what justifies reading its length as a count of distinct
identifiers in `statsData_uniqueUsers`. -/
theorem kvPostCheck_uniqueUsers_nodup (body : ReqBody) (ip : String)
    (api : Nat → BatchOutcome) (now : Int) (stats : KVStatsData)
    (rlSt : RLState) (h : stats.uniqueUsers.Nodup) :
    (kvPostCheck body ip api now stats rlSt).2.1.uniqueUsers.Nodup := by
  unfold kvPostCheck
  cases body with
  | notArray => exact h
  | missing => exact h
  | arr domains =>
    dsimp only
    split
    · exact h
    · have husers : (if stats.uniqueUsers.contains ip then stats.uniqueUsers
          else stats.uniqueUsers ++ [ip]).Nodup := by
        split
        · exact h
        · rename_i hc
          simp only [List.nodup_append, List.nodup_cons, List.not_mem_nil,
            not_false_eq_true, List.nodup_nil, and_true, true_and, h]
          intro a ha hmem
          simp only [List.mem_singleton] at hmem
          subst hmem
          exact hc (List.elem_eq_true_of_mem ha)
      split
      · exact husers
      · exact husers

/-- Witness for C8's amended theorem at a concrete input. -/
theorem statsData_uniqueUsers_witness :
    (["u1", "u2"] : List String).Nodup
    ∧ List.lookup "uniqueUsers"
        (statsDataKV (KVStatsData.mk 1 2 ["u1", "u2"] 3 4 5 6))
      = some (.num ((["u1", "u2"] : List String).toFinset.card : Int)) :=
  ⟨by decide,
    (statsData_uniqueUsers (KVStatsData.mk 1 2 ["u1", "u2"] 3 4 5 6)
      (StatsRow.mk 0 0 0 0 0 0 []) (by decide)).1⟩

end DomainChecker
